import Mathlib

/-!
Shallow embedding of the DEX arbitrage scanner bot
(`src/unnamed/part_002`, the TypeScript variant, with the JavaScript
variant `src/unnamed/part_003` embedded where the two differ).

JavaScript numbers are modelled as exact rationals (`ℚ`); timestamps and
raw on-chain reserves as naturals; the effectful parts (RPC calls, the
Telegram transport, timers) are modelled by passing their outcomes in as
explicit data (`Except`/`Option` for fallible calls, an explicit state
for the rate limiter's mutable timestamp).
-/

/-- The three monitored token pairs (`SYMBOLS`, part_002 line 28). -/
inductive TokenPair where
  | WBTC_USDT
  | ETH_USDT
  | ETH_DAI
deriving DecidableEq

/-- The display string of a token pair (the literal union values of
`TokenPair` in types.ts). -/
def TokenPair.symbolStr : TokenPair → String
  | .WBTC_USDT => "WBTC/USDT"
  | .ETH_USDT => "ETH/USDT"
  | .ETH_DAI => "ETH/DAI"

/-- Structure `PriceData` (types.ts lines 24-31): the normalized quote for one
(exchange, symbol) fetch. -/
structure PriceData where
  exchange : String
  symbol : TokenPair
  bid : ℚ
  ask : ℚ
  tradingFee : ℚ
  timestamp : ℕ
deriving DecidableEq

/-- Constant `RATE_LIMIT_DELAY` (part_002 line 20): minimum spacing in ms. -/
def RATE_LIMIT_DELAY : ℤ := 1000

/-- The rate limiter's mutable state: the module-level variable
`let lastCallTime = 0` (part_002 line 21).  Note that the source keeps a
single such variable for the whole process; there is no per-source
timestamp anywhere in the code. -/
structure RateLimiterState where
  lastCallTime : ℤ
deriving DecidableEq

/-- Initial limiter state: `let lastCallTime = 0` (part_002 line 21). -/
def initialRateLimiterState : RateLimiterState := { lastCallTime := 0 }

/-- Function `applyRateLimit` (part_002 lines 93-104), as a pure state transition.
`now` is the value of `Date.now()` on entry; the result is the number of
milliseconds slept in the `setTimeout` wait (0 when no wait happens)
paired with the updated state, whose `lastCallTime` is the value of
`Date.now()` after the wait (modelled as `now + wait`, i.e. the timer
fires exactly on time).  The function takes no source argument: every
call, whatever source it is issued on behalf of, reads and writes the
same global `lastCallTime`. -/
def applyRateLimit (now : ℤ) (st : RateLimiterState) : ℤ × RateLimiterState :=
  let timeSinceLastCall := now - st.lastCallTime
  if timeSinceLastCall < RATE_LIMIT_DELAY then
    (RATE_LIMIT_DELAY - timeSinceLastCall,
     { lastCallTime := now + (RATE_LIMIT_DELAY - timeSinceLastCall) })
  else
    (0, { lastCallTime := now })

/-- A rate-limited call attributed to one source.  Every call site of
`applyRateLimit` (part_002 lines 108 and 137) runs on behalf of the
source whose fetch it serves, but the function itself takes no source
argument and the process keeps no per-source state, so the attributed
source cannot influence the wait: `throttle s` simply is
`applyRateLimit` on the one global timestamp. -/
def throttle (_source : String) (now : ℤ) (st : RateLimiterState) :
    ℤ × RateLimiterState :=
  applyRateLimit now st

/-- Constant `ethers.ZeroAddress`. -/
def ZeroAddress : String := "0x0000000000000000000000000000000000000000"

/-- Function `fetchTradingFee` (part_002 lines 106-127).  The argument is the
outcome of the awaited `factoryContract.feeTo()` RPC call (`Except.error`
when it throws).  The `try` body initialises `fee = 0.003` and re-assigns
`0.003` when `feeTo` is the zero address; the `catch` returns `0.003`.
The surrounding `applyRateLimit` call only touches the limiter state and
is modelled separately. -/
def fetchTradingFee (feeTo : Except String String) : ℚ :=
  match feeTo with
  | Except.ok a =>
      let fee : ℚ := 3 / 1000
      if a = ZeroAddress then 3 / 1000 else fee
  | Except.error _ => 3 / 1000

/-- The `decimals0` selection in `fetchDexPrice` (part_002 lines 146-149):
default 18, overridden to 8 for WBTC/USDT. -/
def decimals0 : TokenPair → ℕ
  | .WBTC_USDT => 8
  | _ => 18

/-- The `decimals1` selection in `fetchDexPrice` (part_002 lines 146-148):
default 6, overridden to 18 for ETH/DAI. -/
def decimals1 : TokenPair → ℕ
  | .ETH_DAI => 18
  | _ => 6

/-- The outcomes of the awaited external calls made by one
`fetchDexPrice` invocation: `getReserves()`, `token0()`, the
`feeTo()` call inside `fetchTradingFee`, and the `Date.now()` stamp. -/
structure FetchEnv where
  reserves : Except String (ℕ × ℕ)
  token0 : Except String String
  feeTo : Except String String
  now : ℕ

/-- Function `fetchDexPrice` (part_002 lines 135-175; textually identical price
math in part_003 lines 156-200).  Reserves are scaled by
`ethers.formatUnits` (division by `10 ^ decimals`), the mid price is
`reserve1Num / reserve0Num`, and `bid`/`ask` apply the fixed ±0.2%
synthetic spread.  Any throw in the awaited calls lands in the `catch`,
which returns `null` (here `none`); `fetchTradingFee` itself never
throws. -/
def fetchDexPrice (dexName : String) (symbol : TokenPair) (env : FetchEnv) :
    Option PriceData :=
  match env.reserves, env.token0 with
  | Except.ok (reserve0, reserve1), Except.ok _ =>
      let reserve0Num : ℚ := (reserve0 : ℚ) / 10 ^ decimals0 symbol
      let reserve1Num : ℚ := (reserve1 : ℚ) / 10 ^ decimals1 symbol
      let price := reserve1Num / reserve0Num
      let bid := price * (998 / 1000)
      let ask := price * (1002 / 1000)
      some { exchange := dexName, symbol := symbol, bid := bid, ask := ask,
             tradingFee := fetchTradingFee env.feeTo, timestamp := env.now }
  | _, _ => none

/-- The configured sources, `Object.keys(DEXES)` (part_002 lines 44-59)
in declaration order. -/
def dexNames : List String := ["uniswap", "sushiswap"]

/-- The `Promise.all` fan-out of `scanArbitrage` (part_002 lines
222-224): one `fetchDexPrice` call per configured source for the pair;
`fetchOutcome` gives each call's settled result. -/
def scanFetchResults (fetchOutcome : String → Option PriceData) :
    List (Option PriceData) :=
  dexNames.map fetchOutcome

/-- Expression `results.filter((r) => r !== null)` (part_002 line 225): the fan-in
step of `scanArbitrage`, keeping exactly the quotes of the fetches that
succeeded, in source order. -/
def collectValid (results : List (Option PriceData)) : List PriceData :=
  results.filterMap id

/-- Expression `validResults.reduce((min, curr) => curr.ask < min.ask ? curr : min)`
(part_002 lines 233-235): JavaScript `reduce` with no initial value
takes the first element as accumulator and folds left over the rest. -/
def reduceLowestAsk (q : PriceData) (qs : List PriceData) : PriceData :=
  qs.foldl (fun m c => if c.ask < m.ask then c else m) q

/-- Expression `validResults.reduce((max, curr) => curr.bid > max.bid ? curr : max)`
(part_002 lines 236-238). -/
def reduceHighestBid (q : PriceData) (qs : List PriceData) : PriceData :=
  qs.foldl (fun m c => if m.bid < c.bid then c else m) q

/-- The intermediate values of one evaluation (part_002 lines 233-246). -/
structure ScanComputation where
  lowestAsk : PriceData
  highestBid : PriceData
  profit : ℚ
  buyFee : ℚ
  sellFee : ℚ
  profitAfterFees : ℚ
  profitPercentage : ℚ
deriving DecidableEq

/-- Lines 233-246 of part_002: select the buy and sell quotes and
compute the fee-adjusted profit figures over a non-empty quote list
`q :: qs`. -/
def scanComputation (q : PriceData) (qs : List PriceData) : ScanComputation :=
  let lowestAsk := reduceLowestAsk q qs
  let highestBid := reduceHighestBid q qs
  let buyPrice := lowestAsk.ask
  let sellPrice := highestBid.bid
  let profit := sellPrice - buyPrice
  let buyFee := buyPrice * lowestAsk.tradingFee
  let sellFee := sellPrice * highestBid.tradingFee
  let profitAfterFees := profit - buyFee - sellFee
  let profitPercentage := profitAfterFees / buyPrice * 100
  { lowestAsk := lowestAsk, highestBid := highestBid, profit := profit,
    buyFee := buyFee, sellFee := sellFee, profitAfterFees := profitAfterFees,
    profitPercentage := profitPercentage }

/-- JavaScript `Number.prototype.toFixed(2)` for the value range the bot
prints: the sign of `x`, then the integer `n` closest to `100 * |x|`
(ties to the larger `n`), rendered with two decimal digits. -/
def toFixed2 (x : ℚ) : String :=
  (if x < 0 then "-" else "") ++
    toString ((Int.floor (|x| * 100 + 1 / 2)).toNat / 100) ++ "." ++
    (if (Int.floor (|x| * 100 + 1 / 2)).toNat % 100 < 10 then "0" else "") ++
    toString ((Int.floor (|x| * 100 + 1 / 2)).toNat % 100)

/-- Function `formatArbitrageMessage` of the TypeScript variant (part_002 lines
177-195).  `ts` is the value of `getFormattedTimestamp()`.  The sell
line renders `highestBid.bid`. -/
def formatArbitrageMessage (ts : String) (symbol : TokenPair)
    (lowestAsk highestBid : PriceData) (buyFee sellFee : ℚ)
    (profitAfterFees profitPercentage : ℚ) : String :=
  "🚨 *PROFITABLE OPPORTUNITY* 🚨\n" ++
  "*Time:* " ++ ts ++ "\n" ++
  "*Pair:* " ++ symbol.symbolStr ++ "\n" ++
  "*Buy:* " ++ lowestAsk.exchange ++ " at $" ++ toFixed2 lowestAsk.ask ++
    " (Fee: $" ++ toFixed2 buyFee ++ ")\n" ++
  "*Sell:* " ++ highestBid.exchange ++ " at $" ++ toFixed2 highestBid.bid ++
    " (Fee: $" ++ toFixed2 sellFee ++ ")\n" ++
  "*Total Fees:* $" ++ toFixed2 (buyFee + sellFee) ++ "\n" ++
  "*Profit After Fees:* $" ++ toFixed2 profitAfterFees ++
    " (" ++ toFixed2 profitPercentage ++ "%)"

/-- Function `formatArbitrageMessage` of the JavaScript variant (part_003 lines
317-341).  Identical to the TypeScript variant except the sell line,
which renders `highestBid.ask` (part_003 line 333). -/
def formatArbitrageMessageJS (ts : String) (symbol : TokenPair)
    (lowestAsk highestBid : PriceData) (buyFee sellFee : ℚ)
    (profitAfterFees profitPercentage : ℚ) : String :=
  "🚨 *PROFITABLE OPPORTUNITY* 🚨\n" ++
  "*Time:* " ++ ts ++ "\n" ++
  "*Pair:* " ++ symbol.symbolStr ++ "\n" ++
  "*Buy:* " ++ lowestAsk.exchange ++ " at $" ++ toFixed2 lowestAsk.ask ++
    " (Fee: $" ++ toFixed2 buyFee ++ ")\n" ++
  "*Sell:* " ++ highestBid.exchange ++ " at $" ++ toFixed2 highestBid.ask ++
    " (Fee: $" ++ toFixed2 sellFee ++ ")\n" ++
  "*Total Fees:* $" ++ toFixed2 (buyFee + sellFee) ++ "\n" ++
  "*Profit After Fees:* $" ++ toFixed2 profitAfterFees ++
    " (" ++ toFixed2 profitPercentage ++ "%)"

/-- Function `formatNonProfitableMessage` of the TypeScript variant (part_002
lines 197-218). -/
def formatNonProfitableMessage (ts : String) (symbol : TokenPair)
    (lowestAsk highestBid : PriceData) (buyFee sellFee : ℚ)
    (profit profitAfterFees profitPercentage : ℚ) (isSwap : Bool) : String :=
  let title := if isSwap then "📊 *SWAP DETECTED*" else "📊 *MARKET UPDATE*"
  title ++ " - " ++ ts ++ "\n" ++
  "*Pair:* " ++ symbol.symbolStr ++ "\n" ++
  "*Best Buy:* " ++ lowestAsk.exchange ++ " at $" ++ toFixed2 lowestAsk.ask ++
    " (Fee: $" ++ toFixed2 buyFee ++ ")\n" ++
  "*Best Sell:* " ++ highestBid.exchange ++ " at $" ++ toFixed2 highestBid.bid ++
    " (Fee: $" ++ toFixed2 sellFee ++ ")\n" ++
  "*Total Fees:* $" ++ toFixed2 (buyFee + sellFee) ++ "\n" ++
  "*Potential Profit Before Fees:* $" ++ toFixed2 profit ++ "\n" ++
  "*Profit After Fees:* $" ++ toFixed2 profitAfterFees ++
    " (" ++ toFixed2 profitPercentage ++ "%)"

/-- The observable outcome of one `scanArbitrage` call: either the
"no data" notification (part_002 lines 227-231) or a report message,
tagged with which branch of the profitability test produced it. -/
inductive ScanOutcome where
  | noData (message : String)
  | report (profitable : Bool) (message : String)
deriving DecidableEq

/-- Whether the outcome is the no-data notification. -/
def ScanOutcome.isNoData : ScanOutcome → Bool
  | .noData _ => true
  | .report _ _ => false

/-- Whether the outcome is the profitable-opportunity report. -/
def ScanOutcome.isProfitableReport : ScanOutcome → Bool
  | .report true _ => true
  | _ => false

/-- The `if (profitPercentage > 0)` branch of `scanArbitrage` (part_002
lines 248-276) over a non-empty quote list `q :: qs`. -/
def evalReport (ts : String) (symbol : TokenPair) (triggerEvent : Bool)
    (q : PriceData) (qs : List PriceData) : ScanOutcome :=
  if 0 < (scanComputation q qs).profitPercentage then
    ScanOutcome.report true
      (formatArbitrageMessage ts symbol (scanComputation q qs).lowestAsk
        (scanComputation q qs).highestBid (scanComputation q qs).buyFee
        (scanComputation q qs).sellFee (scanComputation q qs).profitAfterFees
        (scanComputation q qs).profitPercentage)
  else
    ScanOutcome.report false
      (formatNonProfitableMessage ts symbol (scanComputation q qs).lowestAsk
        (scanComputation q qs).highestBid (scanComputation q qs).buyFee
        (scanComputation q qs).sellFee (scanComputation q qs).profit
        (scanComputation q qs).profitAfterFees
        (scanComputation q qs).profitPercentage triggerEvent)

/-- Function `scanArbitrage` (part_002 lines 220-283).  `results` is the list of
settled `fetchDexPrice` outcomes for the configured sources (the
`Promise.all` fan-in of line 222); `ts` the formatted timestamp used by
the formatter that runs. -/
def scanArbitrage (ts : String) (symbol : TokenPair) (triggerEvent : Bool)
    (results : List (Option PriceData)) : ScanOutcome :=
  match collectValid results with
  | [] => ScanOutcome.noData ("⚠️ No data for " ++ symbol.symbolStr)
  | q :: qs => evalReport ts symbol triggerEvent q qs

/-- A decoded `Swap` event as delivered to the listener callback
(part_002 lines 290-299). -/
structure SwapEvent where
  sender : String
  amount0In : ℕ
  amount1In : ℕ
  amount0Out : ℕ
  amount1Out : ℕ
  toAddr : String
deriving DecidableEq

/-- The body of the `Swap` listener callback (part_002 lines 300-325):
after logging the decoded amounts it performs exactly one
`scanArbitrage(symbol, true)` call.  The embedding returns the trace of
evaluation invocations the callback makes, each as
(pair, triggered-by-event flag, outcome). -/
def handleSwapEvent (ts : String) (symbol : TokenPair) (_e : SwapEvent)
    (results : List (Option PriceData)) : List (TokenPair × Bool × ScanOutcome) :=
  [(symbol, true, scanArbitrage ts symbol true results)]

/-- The two quotes of spec §8 property 2: ask 100 / bid 99 / fee 0.003 at
source A, ask 101 / bid 102 / fee 0.003 at source B. -/
def quoteA : PriceData :=
  { exchange := "A", symbol := TokenPair.ETH_USDT, bid := 99, ask := 100,
    tradingFee := 3 / 1000, timestamp := 0 }

/-- Second quote of spec §8 property 2. -/
def quoteB : PriceData :=
  { exchange := "B", symbol := TokenPair.ETH_USDT, bid := 102, ask := 101,
    tradingFee := 3 / 1000, timestamp := 0 }

/-- A quote with the strictly larger ask and strictly smaller bid of a
two-quote degenerate scenario (fee 0 keeps the witness arithmetic in
integers). -/
def quoteU : PriceData :=
  { exchange := "uniswap", symbol := TokenPair.ETH_USDT, bid := 99,
    ask := 101, tradingFee := 0, timestamp := 0 }

/-- A quote holding both the strictly minimal ask and the strictly
maximal bid of the two-quote degenerate scenario. -/
def quoteS : PriceData :=
  { exchange := "sushiswap", symbol := TokenPair.ETH_USDT, bid := 100,
    ask := 100, tradingFee := 0, timestamp := 0 }

/-- A lone quote whose round trip is non-profitable (buy at 100, sell
back at 99). -/
def quoteC : PriceData :=
  { exchange := "uniswap", symbol := TokenPair.ETH_USDT, bid := 99,
    ask := 100, tradingFee := 0, timestamp := 0 }

/-- A sample decoded swap event. -/
def eventEx : SwapEvent :=
  { sender := "0xsender", amount0In := 5, amount1In := 0, amount0Out := 0,
    amount1Out := 9000, toAddr := "0xrecipient" }

/-- A sample fully successful fetch environment for ETH/USDT: 1 ETH of
base reserve (18 decimals) against 2 USDT of quote reserve (6 decimals). -/
def envEx10 : FetchEnv :=
  { reserves := Except.ok (10 ^ 18, 2 * 10 ^ 6),
    token0 := Except.ok "0xtoken0", feeTo := Except.ok "0xfee", now := 7 }

/-- The quote that `fetchDexPrice` computes from `envEx10`. -/
def quoteEx10 : PriceData :=
  { exchange := "uniswap", symbol := TokenPair.ETH_USDT,
    bid := ((2 * 10 ^ 6 : ℕ) : ℚ) / 10 ^ decimals1 TokenPair.ETH_USDT /
      (((10 ^ 18 : ℕ) : ℚ) / 10 ^ decimals0 TokenPair.ETH_USDT) * (998 / 1000),
    ask := ((2 * 10 ^ 6 : ℕ) : ℚ) / 10 ^ decimals1 TokenPair.ETH_USDT /
      (((10 ^ 18 : ℕ) : ℚ) / 10 ^ decimals0 TokenPair.ETH_USDT) * (1002 / 1000),
    tradingFee := fetchTradingFee (Except.ok "0xfee"), timestamp := 7 }

lemma collectValid_map_some (l : List PriceData) :
    collectValid (l.map some) = l := by
  simp [collectValid]

lemma evalReport_isReport (ts : String) (symbol : TokenPair) (t : Bool)
    (q : PriceData) (qs : List PriceData) :
    ∃ b msg, evalReport ts symbol t q qs = ScanOutcome.report b msg := by
  unfold evalReport
  split
  · exact ⟨true, _, rfl⟩
  · exact ⟨false, _, rfl⟩

lemma evalReport_isNoData (ts : String) (symbol : TokenPair) (t : Bool)
    (q : PriceData) (qs : List PriceData) :
    (evalReport ts symbol t q qs).isNoData = false := by
  obtain ⟨b, msg, h⟩ := evalReport_isReport ts symbol t q qs
  rw [h]
  rfl

lemma scanComputation_quoteAB :
    scanComputation quoteA [quoteB] =
      { lowestAsk := quoteA, highestBid := quoteB, profit := 2,
        buyFee := 3 / 10, sellFee := 153 / 500, profitAfterFees := 697 / 500,
        profitPercentage := 697 / 500 } := by
  norm_num [scanComputation, reduceLowestAsk, reduceHighestBid, quoteA, quoteB]

/-- C1: on the two-quote input of spec §8 property 2 the evaluator picks
buy = A (minimal ask 100) and sell = B (maximal bid 102) and computes
gross profit 2, buy fee 0.3, sell fee 0.306, net profit 1.394, net profit
percentage 1.394, classifying the cycle as a profitable opportunity. -/
theorem C1_evaluator_correctness :
    (scanComputation quoteA [quoteB]).lowestAsk = quoteA ∧
    (scanComputation quoteA [quoteB]).highestBid = quoteB ∧
    (scanComputation quoteA [quoteB]).profit = 2 ∧
    (scanComputation quoteA [quoteB]).buyFee = 3 / 10 ∧
    (scanComputation quoteA [quoteB]).sellFee = 153 / 500 ∧
    (scanComputation quoteA [quoteB]).profitAfterFees = 697 / 500 ∧
    (scanComputation quoteA [quoteB]).profitPercentage = 697 / 500 ∧
    0 < (scanComputation quoteA [quoteB]).profitPercentage ∧
    (scanArbitrage "2025-01-01 00:00:00" TokenPair.ETH_USDT false
        [some quoteA, some quoteB]).isProfitableReport = true := by
  have h := scanComputation_quoteAB
  refine ⟨by rw [h], by rw [h], by rw [h], by rw [h], by rw [h], by rw [h],
    by rw [h], by rw [h]; norm_num, ?_⟩
  show (evalReport "2025-01-01 00:00:00" TokenPair.ETH_USDT false quoteA
      [quoteB]).isProfitableReport = true
  unfold evalReport
  rw [h]
  norm_num [ScanOutcome.isProfitableReport]

/-- C3: when the `feeTo()` registry lookup throws, `fetchTradingFee`
returns the default 0.003 and `fetchDexPrice` still succeeds, returning a
quote whose fee is that default; the error never escapes the fetch. -/
theorem C3_fee_fallback (dexName : String) (symbol : TokenPair)
    (r0 r1 : ℕ) (t0 err : String) (now : ℕ) :
    fetchTradingFee (Except.error err) = 3 / 1000 ∧
    ∃ q : PriceData,
      fetchDexPrice dexName symbol
          ⟨Except.ok (r0, r1), Except.ok t0, Except.error err, now⟩ = some q ∧
      q.tradingFee = 3 / 1000 :=
  ⟨rfl, ⟨_, rfl, rfl⟩⟩

/-- C4: the fan-in keeps exactly the quotes of the fetches that
succeeded (a quote survives iff its fetch returned it), a failed fetch is
dropped rather than raised, and with 1 of 3 sources failing the scan runs
over exactly the 2 surviving quotes — the same outcome as a 2-source scan
with both succeeding, never the no-data branch. -/
theorem C4_partial_source_failure (a b : PriceData) (ts : String)
    (symbol : TokenPair) (t : Bool) :
    (∀ fetchOutcome : String → Option PriceData,
        scanFetchResults fetchOutcome =
          [fetchOutcome "uniswap", fetchOutcome "sushiswap"]) ∧
    collectValid [some a, none, some b] = [a, b] ∧
    (∀ (results : List (Option PriceData)) (q : PriceData),
        q ∈ collectValid results ↔ some q ∈ results) ∧
    scanArbitrage ts symbol t [some a, none, some b] =
      scanArbitrage ts symbol t [some a, some b] ∧
    (scanArbitrage ts symbol t [some a, none, some b]).isNoData = false := by
  refine ⟨fun _ => rfl, rfl, ?_, rfl, ?_⟩
  · intro results q
    simp [collectValid, List.mem_filterMap]
  · exact evalReport_isNoData ts symbol t a [b]

/-- C5: evaluating a pair with an empty quote list yields the no-data
notification outcome — a total computation that produces no
`EvaluationResult`-carrying report and no error. -/
theorem C5_empty_quotes_no_data (ts : String) (symbol : TokenPair) (t : Bool) :
    scanArbitrage ts symbol t [] =
      ScanOutcome.noData ("⚠️ No data for " ++ symbol.symbolStr) ∧
    (scanArbitrage ts symbol t [none, none]).isNoData = true := by
  exact ⟨rfl, rfl⟩

/-- C6: a successful reserve-ratio fetch scales each raw reserve by the
pair's statically configured decimal count (8 for the WBTC leg, 18 for
ETH and DAI, 6 for USDT), takes mid = scaled quote reserve / scaled base
reserve, and returns bid = mid * (1 - 0.002) and ask = mid * (1 + 0.002). -/
theorem C6_reserve_ratio_mid (dexName : String) (symbol : TokenPair)
    (r0 r1 : ℕ) (t0 fa : String) (now : ℕ) :
    (∃ q : PriceData,
      fetchDexPrice dexName symbol
          ⟨Except.ok (r0, r1), Except.ok t0, Except.ok fa, now⟩ = some q ∧
      q.bid = ((r1 : ℚ) / 10 ^ decimals1 symbol) /
          ((r0 : ℚ) / 10 ^ decimals0 symbol) * (1 - 2 / 1000) ∧
      q.ask = ((r1 : ℚ) / 10 ^ decimals1 symbol) /
          ((r0 : ℚ) / 10 ^ decimals0 symbol) * (1 + 2 / 1000)) ∧
    decimals0 TokenPair.WBTC_USDT = 8 ∧
    decimals0 TokenPair.ETH_USDT = 18 ∧
    decimals0 TokenPair.ETH_DAI = 18 ∧
    decimals1 TokenPair.WBTC_USDT = 6 ∧
    decimals1 TokenPair.ETH_USDT = 6 ∧
    decimals1 TokenPair.ETH_DAI = 18 := by
  refine ⟨⟨_, rfl, ?_, ?_⟩, rfl, rfl, rfl, rfl, rfl, rfl⟩
  · show _ / _ * ((998 : ℚ) / 1000) = _
    ring
  · show _ / _ * ((1002 : ℚ) / 1000) = _
    ring

/-- C2: the claim that the limiter keeps a separate `last_call_time` per
source, so throttled calls attributed to different sources never delay
each other, is false: the code keeps one module-global `lastCallTime`
(part_002 line 21), so a call attributed to sushiswap issued 100ms after
a call attributed to uniswap is made to wait 900ms. -/
theorem C2_counterexample :
    ¬ (∀ (s1 s2 : String), s1 ≠ s2 →
        (throttle s2 5100 (throttle s1 5000 initialRateLimiterState).2).1 = 0) := by
  intro hall
  have h := hall "uniswap" "sushiswap" (by decide)
  revert h
  decide

/-- C2 (amended): the rate limiter keeps a single global
`last_call_time` shared by all sources — `throttle` ignores its source
argument entirely — and any throttle call issued within
`RATE_LIMIT_DELAY` of the previous call's recorded time waits exactly
the remaining interval, whatever sources the two calls are attributed
to: different-source calls do serialize against each other. -/
theorem C2_global_rate_limiter (s1 s2 : String) (now1 now2 : ℤ)
    (st : RateLimiterState)
    (h : now2 - (throttle s1 now1 st).2.lastCallTime < RATE_LIMIT_DELAY) :
    (∀ (s : String) (now : ℤ) (st2 : RateLimiterState),
        throttle s now st2 = applyRateLimit now st2) ∧
    (throttle s2 now2 (throttle s1 now1 st).2).1 =
      RATE_LIMIT_DELAY - (now2 - (throttle s1 now1 st).2.lastCallTime) ∧
    0 < (throttle s2 now2 (throttle s1 now1 st).2).1 := by
  have key : (throttle s2 now2 (throttle s1 now1 st).2).1 =
      RATE_LIMIT_DELAY - (now2 - (throttle s1 now1 st).2.lastCallTime) := by
    show (applyRateLimit now2 (throttle s1 now1 st).2).1 = _
    simp only [applyRateLimit, h, if_true]
  refine ⟨fun _ _ _ => rfl, key, ?_⟩
  rw [key]
  exact sub_pos.mpr h

theorem C2_global_rate_limiter_witness :
    (5100 - (throttle "uniswap" 5000 initialRateLimiterState).2.lastCallTime <
      RATE_LIMIT_DELAY) ∧
    0 < (throttle "sushiswap" 5100
        (throttle "uniswap" 5000 initialRateLimiterState).2).1 :=
  ⟨by decide,
   (C2_global_rate_limiter "uniswap" "sushiswap" 5000 5100
      initialRateLimiterState (by decide)).2.2⟩

/-- C10: every quote a successful `fetchDexPrice` returns satisfies
`bid ≤ ask`: both are derived from the one mid price, which is a ratio
of scaled non-negative reserves, by the factors 0.998 and 1.002. -/
theorem C10_bid_le_ask (dexName : String) (symbol : TokenPair)
    (env : FetchEnv) (q : PriceData)
    (h : fetchDexPrice dexName symbol env = some q) : q.bid ≤ q.ask := by
  unfold fetchDexPrice at h
  rcases hr : env.reserves with e | ⟨r0, r1⟩ <;> rw [hr] at h
  · exact Option.noConfusion h
  rcases ht : env.token0 with e2 | t0 <;> rw [ht] at h
  · exact Option.noConfusion h
  injection h with h'
  subst h'
  show ((r1 : ℚ) / 10 ^ decimals1 symbol / ((r0 : ℚ) / 10 ^ decimals0 symbol)) *
      (998 / 1000) ≤
    ((r1 : ℚ) / 10 ^ decimals1 symbol / ((r0 : ℚ) / 10 ^ decimals0 symbol)) *
      (1002 / 1000)
  have hp : (0 : ℚ) ≤
      (r1 : ℚ) / 10 ^ decimals1 symbol / ((r0 : ℚ) / 10 ^ decimals0 symbol) := by
    positivity
  exact mul_le_mul_of_nonneg_left (by norm_num) hp

theorem C10_bid_le_ask_witness :
    fetchDexPrice "uniswap" TokenPair.ETH_USDT envEx10 = some quoteEx10 ∧
    quoteEx10.bid ≤ quoteEx10.ask :=
  ⟨rfl, C10_bid_le_ask "uniswap" TokenPair.ETH_USDT envEx10 quoteEx10 rfl⟩

lemma toFixed2_eq (x : ℚ) (n : ℕ) (h0 : 0 ≤ x)
    (hn : Int.floor (x * 100 + 1 / 2) = (n : ℤ)) :
    toFixed2 x = "" ++ toString (n / 100) ++ "." ++
      (if n % 100 < 10 then "0" else "") ++ toString (n % 100) := by
  unfold toFixed2
  rw [if_neg (not_lt.mpr h0), abs_of_nonneg h0, hn, Int.toNat_natCast]

lemma formatNonProfitableMessage_title (ts : String) (sym : TokenPair)
    (la hb : PriceData) (bf sf p paf pp : ℚ) (isSwap : Bool) :
    formatNonProfitableMessage ts sym la hb bf sf p paf pp isSwap =
      (if isSwap then "📊 *SWAP DETECTED*" else "📊 *MARKET UPDATE*") ++
      (" - " ++ ts ++ "\n" ++
       "*Pair:* " ++ sym.symbolStr ++ "\n" ++
       "*Best Buy:* " ++ la.exchange ++ " at $" ++ toFixed2 la.ask ++
         " (Fee: $" ++ toFixed2 bf ++ ")\n" ++
       "*Best Sell:* " ++ hb.exchange ++ " at $" ++ toFixed2 hb.bid ++
         " (Fee: $" ++ toFixed2 sf ++ ")\n" ++
       "*Total Fees:* $" ++ toFixed2 (bf + sf) ++ "\n" ++
       "*Potential Profit Before Fees:* $" ++ toFixed2 p ++ "\n" ++
       "*Profit After Fees:* $" ++ toFixed2 paf ++
         " (" ++ toFixed2 pp ++ "%)") := by
  cases isSwap
  case false =>
    simp [formatNonProfitableMessage, String.append_assoc]
    rw [show ("📊 *MARKET UPDATE* - " : String) = "📊 *MARKET UPDATE*" ++ " - "
        from rfl,
      String.append_assoc]
  case true =>
    simp [formatNonProfitableMessage, String.append_assoc]
    rw [show ("📊 *SWAP DETECTED* - " : String) = "📊 *SWAP DETECTED*" ++ " - "
        from rfl,
      String.append_assoc]

lemma swap_title_ne (rest : String) :
    ("📊 *SWAP DETECTED*" ++ rest : String) ≠ "📊 *MARKET UPDATE*" ++ rest := by
  intro hEq
  have hd := congrArg String.data hEq
  rw [String.data_append, String.data_append] at hd
  have hts := List.append_cancel_right hd
  exact absurd hts (by decide)

lemma reduceLowestAsk_eq (qs : List PriceData) :
    ∀ (q s : PriceData), s ∈ q :: qs →
      (∀ r ∈ q :: qs, r ≠ s → s.ask < r.ask) →
      reduceLowestAsk q qs = s := by
  induction qs with
  | nil =>
      intro q s hs _hmin
      have hq : s = q := by simpa using hs
      simp [reduceLowestAsk, hq]
  | cons c rest ih =>
      intro q s hs hmin
      have hstep : reduceLowestAsk q (c :: rest) =
          reduceLowestAsk (if c.ask < q.ask then c else q) rest := rfl
      rw [hstep]
      have hmem : s ∈ (if c.ask < q.ask then c else q) :: rest := by
        rcases List.mem_cons.mp hs with h1 | h2
        · by_cases hc : c.ask < q.ask
          · rw [if_pos hc]
            by_cases hcs : c = s
            · rw [← hcs]
              exact List.mem_cons_self _ _
            · exfalso
              have hlt := hmin c (by simp) hcs
              rw [h1] at hlt
              exact absurd hc (not_lt.mpr (le_of_lt hlt))
          · rw [if_neg hc, h1]
            exact List.mem_cons_self _ _
        · rcases List.mem_cons.mp h2 with h3 | h4
          · by_cases hc : c.ask < q.ask
            · rw [if_pos hc, h3]
              exact List.mem_cons_self _ _
            · by_cases hqs : q = s
              · rw [if_neg hc, hqs]
                exact List.mem_cons_self _ _
              · exfalso
                have hlt := hmin q (by simp) hqs
                rw [h3] at hlt
                exact hc hlt
          · exact List.mem_cons_of_mem _ h4
      have hsub : ∀ r ∈ (if c.ask < q.ask then c else q) :: rest,
          r ≠ s → s.ask < r.ask := by
        intro r hr hrs
        rcases List.mem_cons.mp hr with h1 | h2
        · subst h1
          by_cases hc : c.ask < q.ask
          · rw [if_pos hc] at hrs ⊢
            exact hmin c (by simp) hrs
          · rw [if_neg hc] at hrs ⊢
            exact hmin q (by simp) hrs
        · exact hmin r (List.mem_cons_of_mem _ (List.mem_cons_of_mem _ h2)) hrs
      exact ih _ s hmem hsub

lemma reduceHighestBid_eq (qs : List PriceData) :
    ∀ (q s : PriceData), s ∈ q :: qs →
      (∀ r ∈ q :: qs, r ≠ s → r.bid < s.bid) →
      reduceHighestBid q qs = s := by
  induction qs with
  | nil =>
      intro q s hs _hmax
      have hq : s = q := by simpa using hs
      simp [reduceHighestBid, hq]
  | cons c rest ih =>
      intro q s hs hmax
      have hstep : reduceHighestBid q (c :: rest) =
          reduceHighestBid (if q.bid < c.bid then c else q) rest := rfl
      rw [hstep]
      have hmem : s ∈ (if q.bid < c.bid then c else q) :: rest := by
        rcases List.mem_cons.mp hs with h1 | h2
        · by_cases hc : q.bid < c.bid
          · rw [if_pos hc]
            by_cases hcs : c = s
            · rw [← hcs]
              exact List.mem_cons_self _ _
            · exfalso
              have hlt := hmax c (by simp) hcs
              rw [h1] at hlt
              exact absurd hc (not_lt.mpr (le_of_lt hlt))
          · rw [if_neg hc, h1]
            exact List.mem_cons_self _ _
        · rcases List.mem_cons.mp h2 with h3 | h4
          · by_cases hc : q.bid < c.bid
            · rw [if_pos hc, h3]
              exact List.mem_cons_self _ _
            · by_cases hqs : q = s
              · rw [if_neg hc, hqs]
                exact List.mem_cons_self _ _
              · exfalso
                have hlt := hmax q (by simp) hqs
                rw [h3] at hlt
                exact hc hlt
          · exact List.mem_cons_of_mem _ h4
      have hsub : ∀ r ∈ (if q.bid < c.bid then c else q) :: rest,
          r ≠ s → r.bid < s.bid := by
        intro r hr hrs
        rcases List.mem_cons.mp hr with h1 | h2
        · subst h1
          by_cases hc : q.bid < c.bid
          · rw [if_pos hc] at hrs ⊢
            exact hmax c (by simp) hrs
          · rw [if_neg hc] at hrs ⊢
            exact hmax q (by simp) hrs
        · exact hmax r (List.mem_cons_of_mem _ (List.mem_cons_of_mem _ h2)) hrs
      exact ih _ s hmem hsub

/-- C7: the claim that the `triggered_by_event = true` flag is always
reflected in the formatting of the resulting message is false: the
profitable branch ignores the flag (`formatArbitrageMessage` takes no
`isSwap` argument), so on profitable quotes the event-triggered outcome
is identical to the timer-triggered one. -/
theorem C7_counterexample :
    scanArbitrage "2025-01-01 00:00:00" TokenPair.ETH_USDT true
      [some quoteA, some quoteB] =
    scanArbitrage "2025-01-01 00:00:00" TokenPair.ETH_USDT false
      [some quoteA, some quoteB] ∧
    (scanArbitrage "2025-01-01 00:00:00" TokenPair.ETH_USDT true
      [some quoteA, some quoteB]).isProfitableReport = true := by
  have h : 0 < (scanComputation quoteA [quoteB]).profitPercentage := by
    rw [scanComputation_quoteAB]
    norm_num
  constructor
  · show evalReport "2025-01-01 00:00:00" TokenPair.ETH_USDT true quoteA
        [quoteB] =
      evalReport "2025-01-01 00:00:00" TokenPair.ETH_USDT false quoteA [quoteB]
    unfold evalReport
    rw [if_pos h, if_pos h]
  · show (evalReport "2025-01-01 00:00:00" TokenPair.ETH_USDT true quoteA
        [quoteB]).isProfitableReport = true
    unfold evalReport
    rw [if_pos h]
    rfl

/-- C7 (amended): a single swap event for pair P triggers exactly one
evaluation, with `triggered_by_event = true`; when the evaluation lands
in the non-profitable branch — the only branch that consumes the flag —
the message carries the "SWAP DETECTED" title where a timer-triggered
evaluation of the same quotes carries "MARKET UPDATE", and the two
outcomes differ; the profitable branch does not reflect the flag. -/
theorem C7_event_triggered_cycle (ts : String) (sym : TokenPair)
    (e : SwapEvent) (q : PriceData) (qs : List PriceData)
    (h : ¬ 0 < (scanComputation q qs).profitPercentage) :
    handleSwapEvent ts sym e ((q :: qs).map some) =
      [(sym, true, evalReport ts sym true q qs)] ∧
    (∃ rest : String,
      evalReport ts sym true q qs =
        ScanOutcome.report false ("📊 *SWAP DETECTED*" ++ rest) ∧
      evalReport ts sym false q qs =
        ScanOutcome.report false ("📊 *MARKET UPDATE*" ++ rest)) ∧
    evalReport ts sym true q qs ≠ evalReport ts sym false q qs := by
  have hscan : scanArbitrage ts sym true ((q :: qs).map some) =
      evalReport ts sym true q qs := by
    unfold scanArbitrage
    rw [collectValid_map_some]
  have hT : evalReport ts sym true q qs =
      ScanOutcome.report false
        (formatNonProfitableMessage ts sym (scanComputation q qs).lowestAsk
          (scanComputation q qs).highestBid (scanComputation q qs).buyFee
          (scanComputation q qs).sellFee (scanComputation q qs).profit
          (scanComputation q qs).profitAfterFees
          (scanComputation q qs).profitPercentage true) := by
    unfold evalReport
    rw [if_neg h]
  have hF : evalReport ts sym false q qs =
      ScanOutcome.report false
        (formatNonProfitableMessage ts sym (scanComputation q qs).lowestAsk
          (scanComputation q qs).highestBid (scanComputation q qs).buyFee
          (scanComputation q qs).sellFee (scanComputation q qs).profit
          (scanComputation q qs).profitAfterFees
          (scanComputation q qs).profitPercentage false) := by
    unfold evalReport
    rw [if_neg h]
  have hT' := hT.trans (congrArg (ScanOutcome.report false)
    (formatNonProfitableMessage_title ts sym (scanComputation q qs).lowestAsk
      (scanComputation q qs).highestBid (scanComputation q qs).buyFee
      (scanComputation q qs).sellFee (scanComputation q qs).profit
      (scanComputation q qs).profitAfterFees
      (scanComputation q qs).profitPercentage true))
  have hF' := hF.trans (congrArg (ScanOutcome.report false)
    (formatNonProfitableMessage_title ts sym (scanComputation q qs).lowestAsk
      (scanComputation q qs).highestBid (scanComputation q qs).buyFee
      (scanComputation q qs).sellFee (scanComputation q qs).profit
      (scanComputation q qs).profitAfterFees
      (scanComputation q qs).profitPercentage false))
  rw [if_pos rfl] at hT'
  rw [if_neg (by simp)] at hF'
  refine ⟨?_, ⟨_, hT', hF'⟩, ?_⟩
  · unfold handleSwapEvent
    rw [hscan]
  · intro heq
    rw [hT', hF'] at heq
    have hmsg : ("📊 *SWAP DETECTED*" ++ _ : String) = "📊 *MARKET UPDATE*" ++ _ :=
      (ScanOutcome.report.injEq _ _ _ _).mp heq |>.2
    exact swap_title_ne _ hmsg

theorem C7_event_triggered_cycle_witness :
    (¬ 0 < (scanComputation quoteC []).profitPercentage) ∧
    evalReport "2025-01-01 00:00:00" TokenPair.ETH_USDT true quoteC [] ≠
      evalReport "2025-01-01 00:00:00" TokenPair.ETH_USDT false quoteC [] := by
  have h : ¬ 0 < (scanComputation quoteC []).profitPercentage := by
    norm_num [scanComputation, reduceLowestAsk, reduceHighestBid, quoteC]
  exact ⟨h, (C7_event_triggered_cycle "2025-01-01 00:00:00" TokenPair.ETH_USDT
    eventEx quoteC [] h).2.2⟩

/-- C8: when one quote holds both the strictly minimal ask and the
strictly maximal bid of a non-empty quote list, the evaluator selects
that same quote as buy and as sell and still produces an ordinary report
through the unchanged fee-adjusted formulas — no error, no special
case. -/
theorem C8_degenerate_same_source (ts : String) (sym : TokenPair) (t : Bool)
    (q s : PriceData) (qs : List PriceData)
    (hs : s ∈ q :: qs)
    (hask : ∀ r ∈ q :: qs, r ≠ s → s.ask < r.ask)
    (hbid : ∀ r ∈ q :: qs, r ≠ s → r.bid < s.bid) :
    (scanComputation q qs).lowestAsk = s ∧
    (scanComputation q qs).highestBid = s ∧
    (scanComputation q qs).profit = s.bid - s.ask ∧
    (scanComputation q qs).buyFee = s.ask * s.tradingFee ∧
    (scanComputation q qs).sellFee = s.bid * s.tradingFee ∧
    (scanComputation q qs).profitAfterFees =
      s.bid - s.ask - s.ask * s.tradingFee - s.bid * s.tradingFee ∧
    ∃ b msg, scanArbitrage ts sym t ((q :: qs).map some) =
      ScanOutcome.report b msg := by
  have hlo : reduceLowestAsk q qs = s := reduceLowestAsk_eq qs q s hs hask
  have hhi : reduceHighestBid q qs = s := reduceHighestBid_eq qs q s hs hbid
  refine ⟨by simp [scanComputation, hlo], by simp [scanComputation, hhi],
    by simp [scanComputation, hlo, hhi], by simp [scanComputation, hlo],
    by simp [scanComputation, hhi], by simp [scanComputation, hlo, hhi], ?_⟩
  rw [show scanArbitrage ts sym t ((q :: qs).map some) =
      evalReport ts sym t q qs from by
    unfold scanArbitrage
    rw [collectValid_map_some]]
  exact evalReport_isReport ts sym t q qs

theorem C8_degenerate_same_source_witness :
    (quoteS ∈ quoteU :: [quoteS]) ∧
    (scanComputation quoteU [quoteS]).lowestAsk = quoteS ∧
    (scanComputation quoteU [quoteS]).highestBid = quoteS ∧
    ∃ b msg, scanArbitrage "2025-01-01 00:00:00" TokenPair.ETH_USDT false
      ((quoteU :: [quoteS]).map some) = ScanOutcome.report b msg := by
  have happ := C8_degenerate_same_source "2025-01-01 00:00:00"
    TokenPair.ETH_USDT false quoteU quoteS [quoteS]
    (List.mem_cons_of_mem _ (List.mem_cons_self _ _))
    (by norm_num [quoteU, quoteS])
    (by norm_num [quoteU, quoteS])
  exact ⟨List.mem_cons_of_mem _ (List.mem_cons_self _ _), happ.1, happ.2.1,
    happ.2.2.2.2.2.2⟩

/-- C9: the TypeScript and JavaScript variants of the
profitable-opportunity formatter are not extensionally equal — on the
same input the TypeScript variant renders the sell line with the sell
quote's bid (102.00 here) while the JavaScript variant renders it with
the sell quote's ask (101.00 here), so the produced texts differ. -/
theorem C9_sell_line_divergence :
    formatArbitrageMessage "2025-01-01 00:00:00" TokenPair.ETH_USDT quoteA
      quoteB (3 / 10) (153 / 500) (697 / 500) (697 / 500) ≠
    formatArbitrageMessageJS "2025-01-01 00:00:00" TokenPair.ETH_USDT quoteA
      quoteB (3 / 10) (153 / 500) (697 / 500) (697 / 500) := by
  have h100 : toFixed2 (100 : ℚ) = "" ++ "100" ++ "." ++ "0" ++ "0" :=
    toFixed2_eq 100 10000 (by norm_num) (by norm_num)
  have h102 : toFixed2 (102 : ℚ) = "" ++ "102" ++ "." ++ "0" ++ "0" :=
    toFixed2_eq 102 10200 (by norm_num) (by norm_num)
  have h101 : toFixed2 (101 : ℚ) = "" ++ "101" ++ "." ++ "0" ++ "0" :=
    toFixed2_eq 101 10100 (by norm_num) (by norm_num)
  have h030 : toFixed2 (3 / 10 : ℚ) = "" ++ "0" ++ "." ++ "" ++ "30" :=
    toFixed2_eq (3 / 10) 30 (by norm_num) (by norm_num)
  have h031 : toFixed2 (153 / 500 : ℚ) = "" ++ "0" ++ "." ++ "" ++ "31" :=
    toFixed2_eq (153 / 500) 31 (by norm_num) (by norm_num)
  have h061 : toFixed2 (3 / 10 + 153 / 500 : ℚ) = "" ++ "0" ++ "." ++ "" ++ "61" :=
    toFixed2_eq (3 / 10 + 153 / 500) 61 (by norm_num) (by norm_num)
  have h139 : toFixed2 (697 / 500 : ℚ) = "" ++ "1" ++ "." ++ "" ++ "39" :=
    toFixed2_eq (697 / 500) 139 (by norm_num) (by norm_num)
  unfold formatArbitrageMessage formatArbitrageMessageJS
  simp only [quoteA, quoteB]
  rw [h100, h102, h101, h030, h031, h061, h139]
  decide
